import Mathlib

/-!
Shallow embedding of the vendor-dashboard core:
bearer-token authentication (src/utils/authServer.ts), the category
listing, the post lifecycle routes (create, patch, repost) and the
image-upload proxy. Timestamps are modelled as naturals (milliseconds
since the epoch); the database is modelled as explicit lists of rows;
JavaScript falsy-coalescing (`x || d`) is modelled by explicit helpers.
-/

/-- A decoded JWT payload: the `sub` claim (auth.users.id) and email. -/
structure DecodedToken where
  sub : String
  email : String
  deriving DecidableEq, Repr

/-- A row of the `approved_vendors` table (the fields the core reads). -/
structure Vendor where
  id : String
  user_id : String
  email : String
  company_name : String
  allowed_categories : List String
  status : String
  config_id : String
  deriving DecidableEq, Repr

/-- A row of the `posts` table, with the exact field set the create
route inserts (vendor-dashboard/src/app/api/vendor/posts/route.ts). -/
structure Post where
  id : String
  title : String
  description : Option String
  price : Option Int
  category_id : String
  subcategory_id : Option String
  email : String
  status : String
  is_featured : Bool
  has_photo : Bool
  photo_urls : List String
  edit_token : String
  edit_token_expires_at : Nat
  vendor_id : String
  is_vendor_post : Bool
  condition : Option String
  brand : Option String
  dimensions : Option String
  location : Option String
  bedrooms : Option Int
  bathrooms : Option Int
  square_feet : Option Int
  job_type : Option String
  compensation : Option String
  company_name : String
  created_at : Nat
  updated_at : Nat
  published_at : Nat
  expires_at : Nat
  config_id : String
  is_scraped : Bool
  scraped_url : Option String
  deriving DecidableEq, Repr

/-- A row of the `categories` table (fields the category route uses). -/
structure Category where
  id : String
  name : String
  slug : String
  parent_id : Option String
  deriving DecidableEq, Repr

/-- JavaScript `x || d` on an optional string: absent and the empty
string are falsy and replaced by the default. -/
def jsOrStr (o : Option String) (d : String) : String :=
  match o with
  | some s => if s = "" then d else s
  | none => d

/-- JavaScript `x || null` on an optional string. -/
def jsOrNullStr (o : Option String) : Option String :=
  match o with
  | some s => if s = "" then none else some s
  | none => none

/-- JavaScript `x || null` on an optional number: 0 is falsy. -/
def jsOrNullInt (o : Option Int) : Option Int :=
  match o with
  | some n => if n = 0 then none else some n
  | none => none

/-- JavaScript `x || false` on an optional boolean. -/
def jsOrFalse (o : Option Bool) : Bool :=
  o.getD false

/-- JavaScript falsiness of a form-data string field (`!x`): absent or empty. -/
def jsFalsyStr (o : Option String) : Bool :=
  match o with
  | some s => s == ""
  | none => true

/-- 30 days in milliseconds, `30 * 24 * 60 * 60 * 1000` as in the routes. -/
def thirtyDaysMs : Nat := 30 * 24 * 60 * 60 * 1000

instance {α β : Type} [DecidableEq α] [DecidableEq β] : DecidableEq (Except α β) := fun x y => by
  cases x <;> cases y
  case error.error a b =>
    exact if h : a = b then .isTrue (by rw [h])
      else .isFalse (by intro hh; injection hh; exact h (by assumption))
  case error.ok a b => exact .isFalse (by intro hh; exact Except.noConfusion hh)
  case ok.error a b => exact .isFalse (by intro hh; exact Except.noConfusion hh)
  case ok.ok a b =>
    exact if h : a = b then .isTrue (by rw [h])
      else .isFalse (by intro hh; injection hh; exact h (by assumption))

/-! ## Authentication (vendor-dashboard/src/utils/authServer.ts) -/

/-- The failure modes of `getAuthenticatedVendor`, by thrown message:
`missingCredential` = 'Authentication token missing.',
`invalidCredential` = 'Invalid or expired authentication token.',
`notActiveVendor` = 'User is not an active approved vendor.'. -/
inductive AuthError where
  | missingCredential
  | invalidCredential
  | notActiveVendor
  deriving DecidableEq, Repr

/-- The hard-coded backdoor token value in authServer.ts. -/
def MOCK_TEST_TOKEN : String := "mock-test-token-for-dev"

/-- The backdoor identity's email, from authServer.ts. -/
def TEST_EMAIL_FROM_BACKDOOR : String := "testcars@example.com"

/-- The backdoor identity's auth.users.id, from authServer.ts. -/
def TEST_USER_AUTH_ID_FOR_BACKDOOR : String := "34fdd697-0589-4805-9f44-fc9c20c329c3"

/-- Split a character list at every occurrence of the separator,
keeping empty segments, as JavaScript `split` does. -/
def splitOnChar (sep : Char) : List Char → List (List Char)
  | [] => [[]]
  | c :: cs =>
    if c = sep then [] :: splitOnChar sep cs
    else
      match splitOnChar sep cs with
      | [] => [[c]]
      | w :: ws => (c :: w) :: ws

/-- JavaScript `h.split(' ')`. -/
def jsSplitSpace (s : String) : List String :=
  (splitOnChar ' ' s.toList).map (fun cs => String.mk cs)

/-- `authHeader?.split(' ')[1]`: the token part of the Authorization header. -/
def extractBearerToken (authHeader : Option String) : Option String :=
  match authHeader with
  | none => none
  | some h => (jsSplitSpace h).get? 1

/-- The token-decoding step of `getAuthenticatedVendor`: the backdoor
comparison first, then `jwt.verify` (modelled by the `verify` parameter,
which returns the decoded payload exactly for cryptographically valid,
unexpired tokens). -/
def decodeStep (verify : String → Option DecodedToken) (token : String) :
    Except AuthError DecodedToken :=
  if token = MOCK_TEST_TOKEN then
    .ok { sub := TEST_USER_AUTH_ID_FOR_BACKDOOR, email := TEST_EMAIL_FROM_BACKDOOR }
  else
    match verify token with
    | some d => .ok d
    | none => .error .invalidCredential

/-- The vendor-lookup step: `.from('approved_vendors').eq('user_id', sub)
.single()` followed by the combined `vendorError || !vendorData ||
vendorData.status !== 'active'` check, which throws one single message
for every sub-reason. -/
def vendorLookup (vendors : List Vendor) (sub : String) : Except AuthError Vendor :=
  match vendors.find? (fun v => v.user_id == sub) with
  | none => .error .notActiveVendor
  | some v => if v.status = "active" then .ok v else .error .notActiveVendor

/-- `getAuthenticatedVendor(request)`: extract the bearer token, decode
it (backdoor or JWT verification), look up the linked vendor and check
its status; returns the vendor together with the raw access token. -/
def getAuthenticatedVendor (verify : String → Option DecodedToken)
    (vendors : List Vendor) (authHeader : Option String) :
    Except AuthError (Vendor × String) :=
  match extractBearerToken authHeader with
  | none => .error .missingCredential
  | some token =>
    if token = "" then .error .missingCredential
    else
      match decodeStep verify token with
      | .error e => .error e
      | .ok decoded =>
        match vendorLookup vendors decoded.sub with
        | .error e => .error e
        | .ok v => .ok (v, token)

/-! ## Category listing (vendor-dashboard/src/app/api/vendor/categories/route.ts) -/

/-- Insert a category into a list sorted by name ascending. -/
def insertByName (c : Category) : List Category → List Category
  | [] => [c]
  | d :: ds => if c.name ≤ d.name then c :: d :: ds else d :: insertByName c ds

/-- Sort categories by name ascending, modelling
`.order('name', { ascending: true })`. -/
def sortByName (l : List Category) : List Category :=
  l.foldr insertByName []

/-- Success body of the category route: either the `{ detail }` message
object or the array of categories; both are served with HTTP 200. -/
inductive CategoriesResponse where
  | okMessage (detail : String)
  | okList (categories : List Category)
  deriving DecidableEq, Repr

/-- GET /api/vendor/categories after authentication: if the vendor's
allowed set is empty, return the message object with status 200;
otherwise return the categories whose id is in `allowed_categories`,
ordered by name ascending. -/
def getCategoriesForVendor (vendor : Vendor) (allCategories : List Category) :
    CategoriesResponse :=
  if vendor.allowed_categories.isEmpty then
    .okMessage "No categories assigned to this vendor."
  else
    .okList (sortByName
      (allCategories.filter (fun c => vendor.allowed_categories.contains c.id)))

/-! ## Post creation (vendor-dashboard/src/app/api/vendor/posts/route.ts, POST) -/

/-- The client-supplied `post_data` (a `Partial<Post>`): every field the
route reads, plus the owner/tenant/status fields a client could try to
smuggle in (the route ignores them). -/
structure PostDraft where
  title : Option String := none
  description : Option String := none
  price : Option Int := none
  category_id : Option String := none
  subcategory_id : Option String := none
  is_featured : Option Bool := none
  has_photo : Option Bool := none
  condition : Option String := none
  brand : Option String := none
  dimensions : Option String := none
  location : Option String := none
  bedrooms : Option Int := none
  bathrooms : Option Int := none
  square_feet : Option Int := none
  job_type : Option String := none
  compensation : Option String := none
  company_name : Option String := none
  email : Option String := none
  vendor_id : Option String := none
  config_id : Option String := none
  status : Option String := none
  deriving DecidableEq, Repr

/-- Outcome of the create route. -/
inductive CreateResponse where
  | badRequest (detail : String)
  | forbidden (detail : String)
  | created (message : String) (postId : String) (editToken : String)
  deriving DecidableEq, Repr

/-- The `postToInsert` object the create route builds, field by field. -/
def buildPostToInsert (vendor : Vendor) (d : PostDraft)
    (newPostId editToken : String) (now : Nat) : Post :=
  { id := newPostId
    title := jsOrStr d.title ""
    description := jsOrNullStr d.description
    price := jsOrNullInt d.price
    category_id := jsOrStr d.category_id ""
    subcategory_id := jsOrNullStr d.subcategory_id
    email := vendor.email
    status := "verified"
    is_featured := jsOrFalse d.is_featured
    has_photo := jsOrFalse d.has_photo
    photo_urls := []
    edit_token := editToken
    edit_token_expires_at := now + thirtyDaysMs
    vendor_id := vendor.id
    is_vendor_post := true
    condition := jsOrNullStr d.condition
    brand := jsOrNullStr d.brand
    dimensions := jsOrNullStr d.dimensions
    location := jsOrNullStr d.location
    bedrooms := jsOrNullInt d.bedrooms
    bathrooms := jsOrNullInt d.bathrooms
    square_feet := jsOrNullInt d.square_feet
    job_type := jsOrNullStr d.job_type
    compensation := jsOrNullStr d.compensation
    company_name := jsOrStr d.company_name vendor.company_name
    created_at := now
    updated_at := now
    published_at := now
    expires_at := now + thirtyDaysMs
    config_id := vendor.config_id
    is_scraped := false
    scraped_url := none }

/-- POST /api/vendor/posts after authentication: 400 only when
`post_data` is absent; build `postToInsert` (defaulting falsy fields);
reject with 403 when its category is not in the vendor's allowed set,
before any insert; otherwise insert and return the new id and token.
Returns the HTTP outcome paired with the resulting posts table. -/
def createPost (vendor : Vendor) (post_data : Option PostDraft)
    (newPostId editToken : String) (now : Nat) (posts : List Post) :
    CreateResponse × List Post :=
  match post_data with
  | none => (.badRequest "Post data is required.", posts)
  | some d =>
    let postToInsert := buildPostToInsert vendor d newPostId editToken now
    if vendor.allowed_categories.contains postToInsert.category_id then
      (.created "Post created successfully!" postToInsert.id postToInsert.edit_token,
        posts ++ [postToInsert])
    else
      (.forbidden "Vendor is not allowed to post in the selected main category.", posts)

/-! ## Post update (vendor-dashboard/src/app/api/vendor/posts/[postId]/route.ts, PATCH) -/

/-- The client-supplied partial update body; a present field is written
through to the row by `.update(updates)`. -/
structure PostUpdates where
  title : Option String := none
  description : Option String := none
  price : Option Int := none
  category_id : Option String := none
  subcategory_id : Option String := none
  has_photo : Option Bool := none
  photo_urls : Option (List String) := none
  deriving DecidableEq, Repr

/-- Outcome of the PATCH route. -/
inductive PatchResponse where
  | badRequest (detail : String)
  | okMessage (message : String)
  deriving DecidableEq, Repr

/-- Apply a Supabase partial update to one row: every supplied field is
written (including `category_id` and `subcategory_id`), and the route
always sets `updates.updated_at` to now before the call. -/
def applyUpdates (u : PostUpdates) (now : Nat) (p : Post) : Post :=
  { p with
    title := u.title.getD p.title
    description := if u.description.isSome then u.description else p.description
    price := if u.price.isSome then u.price else p.price
    category_id := u.category_id.getD p.category_id
    subcategory_id := if u.subcategory_id.isSome then u.subcategory_id else p.subcategory_id
    has_photo := u.has_photo.getD p.has_photo
    photo_urls := u.photo_urls.getD p.photo_urls
    updated_at := now }

/-- PATCH /api/vendor/posts/[postId] after authentication: 400 when the
id or body is falsy; otherwise run `.update(updates).eq('id', postId)
.eq('vendor_id', vendor.id)` with no `.single()`, so a null error is
reported as success whatever the number of affected rows. -/
def patchPost (vendor : Vendor) (postId : Option String) (updates : Option PostUpdates)
    (now : Nat) (posts : List Post) : PatchResponse × List Post :=
  match postId, updates with
  | none, _ => (.badRequest "Post ID and update data are required.", posts)
  | _, none => (.badRequest "Post ID and update data are required.", posts)
  | some pid, some u =>
    if pid = "" then (.badRequest "Post ID and update data are required.", posts)
    else
      (.okMessage "Post updated successfully!",
        posts.map (fun p =>
          if p.id == pid && p.vendor_id == vendor.id then applyUpdates u now p else p))

/-! ## Repost (vendor-dashboard/src/app/api/vendor/posts/[postId]/repost/route.ts) -/

/-- Outcome of the repost route. -/
inductive RepostResponse where
  | badRequest (detail : String)
  | notFound (detail : String)
  | created (message : String) (postId : String) (editToken : String)
  deriving DecidableEq, Repr

/-- The `repostedPost` object: spread of the original with new id, new
edit token, all four timestamps reset to now / now + 30 days, status
forced to verified and scrape provenance cleared. -/
def buildRepostedPost (original : Post) (newPostId newEditToken : String) (now : Nat) :
    Post :=
  { original with
    id := newPostId
    edit_token := newEditToken
    edit_token_expires_at := now + thirtyDaysMs
    created_at := now
    updated_at := now
    published_at := now
    expires_at := now + thirtyDaysMs
    status := "verified"
    is_vendor_post := true
    is_scraped := false
    scraped_url := none }

/-- POST /api/vendor/posts/[postId]/repost after authentication: fetch
the original owner-scoped (404 when absent or not owned), clone it with
fresh id/token/timestamps, insert it as a new row, and return the new id
and edit token; the original row is not written. -/
def repostPost (vendor : Vendor) (originalPostId : Option String)
    (newPostId newEditToken : String) (now : Nat) (posts : List Post) :
    RepostResponse × List Post :=
  match originalPostId with
  | none => (.badRequest "Original Post ID is required.", posts)
  | some opid =>
    if opid = "" then (.badRequest "Original Post ID is required.", posts)
    else
      match posts.find? (fun p => p.id == opid && p.vendor_id == vendor.id) with
      | none => (.notFound "Original post not found or unauthorized to repost.", posts)
      | some original =>
        let reposted := buildRepostedPost original newPostId newEditToken now
        (.created "Post reposted successfully!" reposted.id reposted.edit_token,
          posts ++ [reposted])

/-! ## Image upload proxy (vendor-dashboard/src/app/api/vendor/upload-image/route.ts) -/

/-- The multipart form fields the proxy reads; the image is modelled by
its presence (a File object is always truthy in JavaScript). -/
structure UploadForm where
  token : Option String := none
  postId : Option String := none
  config_id : Option String := none
  image : Option String := none
  deriving DecidableEq, Repr

/-- Outcome of the proxy route: auth failures, the 400 missing-field
response, or the forward of the four fields to the edge function. -/
inductive UploadResponse where
  | unauthorized (detail : String)
  | forbidden (detail : String)
  | badRequest (detail : String)
  | forwarded (token : String) (postId : String) (configId : String) (image : String)
  deriving DecidableEq, Repr

/-- The body of the proxy after `getAuthenticatedVendor` succeeded. The
resolved vendor, the raw access token and the posts table are all in
scope here exactly as in the route, and none of them is consulted: the
only server-side validation is presence of the four form fields. -/
def uploadImageAfterAuth (vendor : Vendor) (accessToken : String)
    (posts : List Post) (form : UploadForm) : UploadResponse :=
  if jsFalsyStr form.token || jsFalsyStr form.postId || jsFalsyStr form.config_id
      || form.image.isNone then
    .badRequest "Missing required fields for image upload: token, postId, config_id, image."
  else
    .forwarded (form.token.getD "") (form.postId.getD "") (form.config_id.getD "")
      (form.image.getD "")

/-- POST /api/vendor/upload-image: authenticate, then forward. -/
def uploadImagePOST (verify : String → Option DecodedToken) (vendors : List Vendor)
    (authHeader : Option String) (posts : List Post) (form : UploadForm) :
    UploadResponse :=
  match getAuthenticatedVendor verify vendors authHeader with
  | .error .missingCredential => .unauthorized "Authentication token missing."
  | .error .invalidCredential => .unauthorized "Invalid or expired authentication token."
  | .error .notActiveVendor => .forbidden "User is not an active approved vendor."
  | .ok (vendor, accessToken) => uploadImageAfterAuth vendor accessToken posts form

/-! ## Concrete fixtures -/

/-- A verifier that validates no token at all: under it, no supplied
bearer token is a cryptographically valid signed credential. -/
def rejectAllVerifier : String → Option DecodedToken := fun _ => none

/-- An active vendor row linked to the backdoor identity's auth user id. -/
def backdoorLinkedVendor : Vendor :=
  { id := "vendor-1"
    user_id := TEST_USER_AUTH_ID_FOR_BACKDOOR
    email := "testcars@example.com"
    company_name := "Test Cars"
    allowed_categories := ["cat-cars"]
    status := "active"
    config_id := "config-1" }

/-- An active vendor A. -/
def vendorA : Vendor :=
  { id := "vendor-A"
    user_id := "user-A"
    email := "a@example.com"
    company_name := "A Co"
    allowed_categories := ["cat-1"]
    status := "active"
    config_id := "config-1" }

/-- An active vendor B, a different principal in the same tenant. -/
def vendorB : Vendor :=
  { id := "vendor-B"
    user_id := "user-B"
    email := "b@example.com"
    company_name := "B Co"
    allowed_categories := ["cat-1"]
    status := "active"
    config_id := "config-1" }

/-- A post row owned by vendor A. -/
def postOfA : Post :=
  { id := "post-1"
    title := "Desk"
    description := some "oak desk"
    price := some 50
    category_id := "cat-1"
    subcategory_id := none
    email := "a@example.com"
    status := "verified"
    is_featured := false
    has_photo := false
    photo_urls := []
    edit_token := "edit-token-1"
    edit_token_expires_at := 500 + thirtyDaysMs
    vendor_id := "vendor-A"
    is_vendor_post := true
    condition := none
    brand := none
    dimensions := none
    location := none
    bedrooms := none
    bathrooms := none
    square_feet := none
    job_type := none
    compensation := none
    company_name := "A Co"
    created_at := 500
    updated_at := 500
    published_at := 500
    expires_at := 500 + thirtyDaysMs
    config_id := "config-1"
    is_scraped := false
    scraped_url := none }

/-- A draft that omits the required title and price but names an
allowed category. -/
def draftMissingTitle : PostDraft :=
  { description := some "no title supplied", category_id := some "cat-1" }

/-- A draft that omits the category entirely. -/
def draftNoCategory : PostDraft :=
  { title := some "Desk", price := some 50 }

/-- A draft naming a category outside vendor A's allowed set. -/
def draftBadCategory : PostDraft :=
  { title := some "Car", price := some 900, category_id := some "cat-other" }

/-- A complete well-formed draft in vendor A's allowed set. -/
def draftDesk : PostDraft :=
  { title := some "Desk", price := some 50, category_id := some "cat-1" }

/-! ## C1 -/

/-- C1: the claim that authentication fails for every token that is not
a cryptographically valid signed credential is violated by the code:
under a verifier that validates no token at all, the hard-coded
`MOCK_TEST_TOKEN` still authenticates successfully, bypassing signature
verification entirely. -/
theorem auth_backdoor_token_bypasses_verification :
    getAuthenticatedVendor rejectAllVerifier [backdoorLinkedVendor]
        (some ("Bearer " ++ MOCK_TEST_TOKEN))
      = .ok (backdoorLinkedVendor, MOCK_TEST_TOKEN)
    ∧ rejectAllVerifier MOCK_TEST_TOKEN = none := by
  exact ⟨by decide, rfl⟩

/-! ## C2 -/

/-- C2: the claim that a PATCH matching no owned row fails with NotFound
is violated: vendor B patching vendor A's post gets the success message
'Post updated successfully!' although zero rows were affected; the row
itself is left unchanged (and no row is created). -/
theorem patch_zero_rows_reports_success :
    patchPost vendorB (some "post-1") (some { title := some "Hijacked" }) 2000 [postOfA]
      = (.okMessage "Post updated successfully!", [postOfA])
    ∧ postOfA.vendor_id ≠ vendorB.id := by
  exact ⟨rfl, by decide⟩

/-! ## C3 -/

/-- C3: the claim that `category_id` is immutable under PATCH is
violated: the route forwards a supplied `category_id` straight into the
update, so the stored category of vendor A's own post changes from
"cat-1" to "cat-2" (with `updated_at` refreshed). -/
theorem patch_category_id_is_mutable :
    patchPost vendorA (some "post-1") (some { category_id := some "cat-2" }) 2000 [postOfA]
      = (.okMessage "Post updated successfully!",
          [{ postOfA with category_id := "cat-2", updated_at := 2000 }])
    ∧ postOfA.category_id ≠ "cat-2" := by
  exact ⟨rfl, by decide⟩

/-! ## C4 -/

/-- C4 counterexample: a create request missing both required fields
title and price is not rejected with 400: it succeeds and inserts a row
(with title defaulted to the empty string and price to null). -/
theorem create_missing_title_inserts_row :
    draftMissingTitle.title = none
    ∧ draftMissingTitle.price = none
    ∧ (createPost vendorA (some draftMissingTitle) "post-2" "token-2" 3000 []).1
        = .created "Post created successfully!" "post-2" "token-2"
    ∧ (createPost vendorA (some draftMissingTitle) "post-2" "token-2" 3000 []).2 ≠ [] := by
  refine ⟨rfl, rfl, rfl, by decide⟩

/-! ## Shared lemmas about the create route -/

/-- When the draft's (defaulted) category is not in the allowed set,
the create route answers 403 before the insert: the store is unchanged. -/
lemma createPost_not_allowed (vendor : Vendor) (d : PostDraft)
    (newPostId editToken : String) (now : Nat) (posts : List Post)
    (h : vendor.allowed_categories.contains (jsOrStr d.category_id "") = false) :
    createPost vendor (some d) newPostId editToken now posts
      = (.forbidden "Vendor is not allowed to post in the selected main category.", posts) := by
  have hc : (buildPostToInsert vendor d newPostId editToken now).category_id
      = jsOrStr d.category_id "" := rfl
  have hmem : jsOrStr d.category_id "" ∉ vendor.allowed_categories := by simpa using h
  simp [createPost, hc, hmem]

/-- When the draft's (defaulted) category is allowed, the create route
inserts `postToInsert` and returns its id and edit token. -/
lemma createPost_allowed (vendor : Vendor) (d : PostDraft)
    (newPostId editToken : String) (now : Nat) (posts : List Post)
    (h : vendor.allowed_categories.contains (jsOrStr d.category_id "") = true) :
    createPost vendor (some d) newPostId editToken now posts
      = (.created "Post created successfully!" newPostId editToken,
          posts ++ [buildPostToInsert vendor d newPostId editToken now]) := by
  have hc : (buildPostToInsert vendor d newPostId editToken now).category_id
      = jsOrStr d.category_id "" := rfl
  have hmem : jsOrStr d.category_id "" ∈ vendor.allowed_categories := by simpa using h
  simp [createPost, hc, hmem]
  exact ⟨rfl, rfl⟩

/-! ## C4 (amended) -/

/-- C4 amended: the create route returns 400 (with no insert) only when
`post_data` itself is absent; a present draft with no `category_id` is
defaulted to the empty string and rejected with 403 and no insert
(whenever the empty string is not an allowed category); any draft whose
defaulted category is allowed — title and price may be missing — is
inserted. -/
theorem create_missing_fields_amended (vendor : Vendor) (d : PostDraft)
    (newPostId editToken : String) (now : Nat) (posts : List Post) :
    createPost vendor none newPostId editToken now posts
        = (.badRequest "Post data is required.", posts)
    ∧ (d.category_id = none → vendor.allowed_categories.contains "" = false →
        createPost vendor (some d) newPostId editToken now posts
          = (.forbidden "Vendor is not allowed to post in the selected main category.", posts))
    ∧ (vendor.allowed_categories.contains (jsOrStr d.category_id "") = true →
        createPost vendor (some d) newPostId editToken now posts
          = (.created "Post created successfully!" newPostId editToken,
              posts ++ [buildPostToInsert vendor d newPostId editToken now])) := by
  refine ⟨rfl, ?_, ?_⟩
  · intro h1 h2
    apply createPost_not_allowed
    rw [h1]
    exact h2
  · intro h
    exact createPost_allowed vendor d newPostId editToken now posts h

/-- Witness for the amended C4: at concrete inputs, the category-less
draft is rejected with 403 and no insert, while the draft missing title
and price is inserted successfully. -/
theorem create_missing_fields_amended_witness :
    createPost vendorA (some draftNoCategory) "post-3" "token-3" 3000 []
        = (.forbidden "Vendor is not allowed to post in the selected main category.", [])
    ∧ createPost vendorA (some draftMissingTitle) "post-2" "token-2" 3000 []
        = (.created "Post created successfully!" "post-2" "token-2",
            [buildPostToInsert vendorA draftMissingTitle "post-2" "token-2" 3000]) := by
  exact ⟨(create_missing_fields_amended vendorA draftNoCategory "post-3" "token-3" 3000 []).2.1
      rfl (by decide),
    (create_missing_fields_amended vendorA draftMissingTitle "post-2" "token-2" 3000 []).2.2
      (by decide)⟩

/-! ## C5 -/

/-- C5: a create request whose (defaulted) category is not a member of
the vendor's `allowed_categories` fails with the 403 category message,
and the posts store is returned unchanged: the rejection happens before
the insert. -/
theorem create_disallowed_category_forbidden (vendor : Vendor) (d : PostDraft)
    (newPostId editToken : String) (now : Nat) (posts : List Post)
    (h : vendor.allowed_categories.contains (jsOrStr d.category_id "") = false) :
    createPost vendor (some d) newPostId editToken now posts
      = (.forbidden "Vendor is not allowed to post in the selected main category.", posts) :=
  createPost_not_allowed vendor d newPostId editToken now posts h

/-- Witness for C5 at a concrete disallowed category. -/
theorem create_disallowed_category_forbidden_witness :
    createPost vendorA (some draftBadCategory) "post-4" "token-4" 3000 [postOfA]
      = (.forbidden "Vendor is not allowed to post in the selected main category.", [postOfA]) :=
  create_disallowed_category_forbidden vendorA draftBadCategory "post-4" "token-4" 3000 [postOfA]
    (by decide)

/-! ## C7 -/

/-- C7: a successful creation inserts a post whose id and edit token are
the freshly generated ones (distinct from every stored id and token when
generation is fresh), whose `vendor_id` and `config_id` come from the
authenticated vendor, with status verified, empty `photo_urls`,
`published_at = now`, `expires_at = now + 30 days`, email always from
the vendor profile and company name defaulted from it when the draft
omits one; the response carries the new id and edit token. -/
theorem create_success_spec (vendor : Vendor) (d : PostDraft) (newPostId editToken : String)
    (now : Nat) (posts : List Post)
    (hcat : vendor.allowed_categories.contains (jsOrStr d.category_id "") = true)
    (hid : ∀ q ∈ posts, q.id ≠ newPostId)
    (htok : ∀ q ∈ posts, q.edit_token ≠ editToken) :
    createPost vendor (some d) newPostId editToken now posts
      = (.created "Post created successfully!" newPostId editToken,
          posts ++ [buildPostToInsert vendor d newPostId editToken now])
    ∧ (buildPostToInsert vendor d newPostId editToken now).id = newPostId
    ∧ (buildPostToInsert vendor d newPostId editToken now).edit_token = editToken
    ∧ (∀ q ∈ posts, q.id ≠ (buildPostToInsert vendor d newPostId editToken now).id)
    ∧ (∀ q ∈ posts, q.edit_token ≠ (buildPostToInsert vendor d newPostId editToken now).edit_token)
    ∧ (buildPostToInsert vendor d newPostId editToken now).vendor_id = vendor.id
    ∧ (buildPostToInsert vendor d newPostId editToken now).config_id = vendor.config_id
    ∧ (buildPostToInsert vendor d newPostId editToken now).status = "verified"
    ∧ (buildPostToInsert vendor d newPostId editToken now).photo_urls = []
    ∧ (buildPostToInsert vendor d newPostId editToken now).published_at = now
    ∧ (buildPostToInsert vendor d newPostId editToken now).expires_at = now + thirtyDaysMs
    ∧ (buildPostToInsert vendor d newPostId editToken now).email = vendor.email
    ∧ (d.company_name = none →
        (buildPostToInsert vendor d newPostId editToken now).company_name
          = vendor.company_name) := by
  refine ⟨createPost_allowed vendor d newPostId editToken now posts hcat,
    rfl, rfl, hid, htok, rfl, rfl, rfl, rfl, rfl, rfl, rfl, ?_⟩
  intro h
  simp [buildPostToInsert, jsOrStr, h]

/-- Witness for C7 at a concrete well-formed draft. -/
theorem create_success_spec_witness :
    createPost vendorA (some draftDesk) "post-9" "token-9" 5000 [postOfA]
      = (.created "Post created successfully!" "post-9" "token-9",
          [postOfA] ++ [buildPostToInsert vendorA draftDesk "post-9" "token-9" 5000])
    ∧ (buildPostToInsert vendorA draftDesk "post-9" "token-9" 5000).status = "verified" := by
  have h := create_success_spec vendorA draftDesk "post-9" "token-9" 5000 [postOfA]
    (by decide) (by decide) (by decide)
  exact ⟨h.1, h.2.2.2.2.2.2.2.1⟩

/-! ## C6 -/

/-- C6: reposting an owned post appends a clone with a new id and a new
edit token (distinct from the original's when generation is fresh), the
same category and content fields, status forced to verified, all four
timestamps reset so that `expires_at - published_at` is exactly 30 days,
scrape provenance cleared; the original rows are returned unchanged with
the clone appended. -/
theorem repost_spec (vendor : Vendor) (posts : List Post)
    (opid newPostId newEditToken : String) (now : Nat) (original : Post)
    (hne : opid ≠ "")
    (hfind : posts.find? (fun p => p.id == opid && p.vendor_id == vendor.id) = some original)
    (hid : newPostId ≠ original.id) (htok : newEditToken ≠ original.edit_token) :
    repostPost vendor (some opid) newPostId newEditToken now posts
      = (.created "Post reposted successfully!" newPostId newEditToken,
          posts ++ [buildRepostedPost original newPostId newEditToken now])
    ∧ (buildRepostedPost original newPostId newEditToken now).id ≠ original.id
    ∧ (buildRepostedPost original newPostId newEditToken now).edit_token ≠ original.edit_token
    ∧ (buildRepostedPost original newPostId newEditToken now).category_id = original.category_id
    ∧ (buildRepostedPost original newPostId newEditToken now).status = "verified"
    ∧ (buildRepostedPost original newPostId newEditToken now).created_at = now
    ∧ (buildRepostedPost original newPostId newEditToken now).updated_at = now
    ∧ (buildRepostedPost original newPostId newEditToken now).published_at = now
    ∧ (buildRepostedPost original newPostId newEditToken now).expires_at = now + thirtyDaysMs
    ∧ (buildRepostedPost original newPostId newEditToken now).expires_at
        - (buildRepostedPost original newPostId newEditToken now).published_at = thirtyDaysMs
    ∧ (buildRepostedPost original newPostId newEditToken now).is_scraped = false
    ∧ (buildRepostedPost original newPostId newEditToken now).scraped_url = none
    ∧ (buildRepostedPost original newPostId newEditToken now).title = original.title
    ∧ (buildRepostedPost original newPostId newEditToken now).description = original.description
    ∧ (buildRepostedPost original newPostId newEditToken now).price = original.price
    ∧ (buildRepostedPost original newPostId newEditToken now).subcategory_id
        = original.subcategory_id
    ∧ (buildRepostedPost original newPostId newEditToken now).photo_urls = original.photo_urls
    ∧ (buildRepostedPost original newPostId newEditToken now).has_photo = original.has_photo
    ∧ (buildRepostedPost original newPostId newEditToken now).email = original.email
    ∧ (buildRepostedPost original newPostId newEditToken now).company_name
        = original.company_name
    ∧ (buildRepostedPost original newPostId newEditToken now).vendor_id = original.vendor_id
    ∧ (buildRepostedPost original newPostId newEditToken now).config_id = original.config_id := by
  refine ⟨?_, hid, htok, rfl, rfl, rfl, rfl, rfl, rfl,
    (by show now + thirtyDaysMs - now = thirtyDaysMs; omega), rfl, rfl, rfl, rfl, rfl,
    rfl, rfl, rfl, rfl, rfl, rfl, rfl⟩
  simp [repostPost, hne, hfind]
  exact ⟨rfl, rfl⟩

/-- Witness for C6: reposting vendor A's concrete post. -/
theorem repost_spec_witness :
    repostPost vendorA (some "post-1") "post-5" "token-5" 9000 [postOfA]
      = (.created "Post reposted successfully!" "post-5" "token-5",
          [postOfA] ++ [buildRepostedPost postOfA "post-5" "token-5" 9000]) :=
  (repost_spec vendorA [postOfA] "post-1" "post-5" "token-5" 9000 postOfA
    (by decide) (by decide) (by decide) (by decide)).1

/-! ## Auth lemmas shared by the authentication claims -/

/-- A successful vendor lookup only ever returns a vendor with status
exactly active. -/
lemma vendorLookup_ok_status (vendors : List Vendor) (sub : String) (v : Vendor)
    (h : vendorLookup vendors sub = .ok v) : v.status = "active" := by
  unfold vendorLookup at h
  cases hf : vendors.find? (fun w => w.user_id == sub) with
  | none => simp [hf] at h
  | some w =>
    simp only [hf] at h
    by_cases hs : w.status = "active"
    · rw [if_pos hs] at h
      injection h with h2
      rw [← h2]
      exact hs
    · rw [if_neg hs] at h
      exact absurd h (by simp)

/-- No linked vendor row: the lookup fails with the single shared error. -/
lemma vendorLookup_none_err (vendors : List Vendor) (sub : String)
    (h : vendors.find? (fun w => w.user_id == sub) = none) :
    vendorLookup vendors sub = .error .notActiveVendor := by
  simp [vendorLookup, h]

/-- Linked vendor with non-active status: the lookup fails with the same
shared error as the missing-row case. -/
lemma vendorLookup_inactive_err (vendors : List Vendor) (sub : String) (v : Vendor)
    (hf : vendors.find? (fun w => w.user_id == sub) = some v) (hs : v.status ≠ "active") :
    vendorLookup vendors sub = .error .notActiveVendor := by
  simp [vendorLookup, hf, hs]

/-- Once the token is extracted and decoded, `getAuthenticatedVendor`
is the vendor lookup paired with the raw token. -/
lemma getAuthenticatedVendor_reduce (verify : String → Option DecodedToken)
    (vendors : List Vendor) (header : Option String) (tk : String) (d : DecodedToken)
    (hx : extractBearerToken header = some tk) (hne : tk ≠ "")
    (hd : decodeStep verify tk = .ok d) :
    getAuthenticatedVendor verify vendors header
      = match vendorLookup vendors d.sub with
        | .error e => .error e
        | .ok v => .ok (v, tk) := by
  unfold getAuthenticatedVendor
  rw [hx]
  simp [hne, hd]

/-! ## C8 -/

/-- C8: (1) authentication only ever succeeds with a vendor whose status
is exactly active; (2) for a decodable token, the run against a
database with no linked vendor row and the run against a database whose
linked vendor is not active produce the identical observable failure —
the single `notActiveVendor` error ('User is not an active approved
vendor.', 403) — so the two sub-reasons are indistinguishable to the
caller. -/
theorem auth_active_only_and_uniform_failure
    (verify : String → Option DecodedToken) (header : Option String) :
    (∀ (vendors : List Vendor) (v : Vendor) (t : String),
        getAuthenticatedVendor verify vendors header = .ok (v, t) → v.status = "active")
    ∧ (∀ (tk : String) (d : DecodedToken) (vendors1 vendors2 : List Vendor) (v2 : Vendor),
        extractBearerToken header = some tk → tk ≠ "" → decodeStep verify tk = .ok d →
        vendors1.find? (fun w => w.user_id == d.sub) = none →
        vendors2.find? (fun w => w.user_id == d.sub) = some v2 → v2.status ≠ "active" →
        getAuthenticatedVendor verify vendors1 header = .error .notActiveVendor
        ∧ getAuthenticatedVendor verify vendors2 header = .error .notActiveVendor
        ∧ getAuthenticatedVendor verify vendors1 header
            = getAuthenticatedVendor verify vendors2 header) := by
  constructor
  · intro vendors v t h
    unfold getAuthenticatedVendor at h
    cases hx : extractBearerToken header with
    | none => simp [hx] at h
    | some tk =>
      simp only [hx] at h
      by_cases hne : tk = ""
      · simp [hne] at h
      · rw [if_neg hne] at h
        cases hd : decodeStep verify tk with
        | error e => simp [hd] at h
        | ok d =>
          simp only [hd] at h
          cases hv : vendorLookup vendors d.sub with
          | error e => simp [hv] at h
          | ok w =>
            simp only [hv] at h
            injection h with h2
            have hw : w = v := congrArg Prod.fst h2
            rw [← hw]
            exact vendorLookup_ok_status vendors d.sub w hv
  · intro tk d vendors1 vendors2 v2 hx hne hd hf1 hf2 hs2
    have e1 : getAuthenticatedVendor verify vendors1 header = .error .notActiveVendor := by
      rw [getAuthenticatedVendor_reduce verify vendors1 header tk d hx hne hd,
        vendorLookup_none_err vendors1 d.sub hf1]
    have e2 : getAuthenticatedVendor verify vendors2 header = .error .notActiveVendor := by
      rw [getAuthenticatedVendor_reduce verify vendors2 header tk d hx hne hd,
        vendorLookup_inactive_err vendors2 d.sub v2 hf2 hs2]
    exact ⟨e1, e2, e1.trans e2.symm⟩

/-- A verifier validating exactly one demo token for subject user-X. -/
def demoVerifier : String → Option DecodedToken := fun t =>
  if t = "valid-token" then some { sub := "user-X", email := "x@example.com" } else none

/-- A vendor row linked to user-X whose status is not active. -/
def inactiveVendorX : Vendor :=
  { id := "vendor-X"
    user_id := "user-X"
    email := "x@example.com"
    company_name := "X Co"
    allowed_categories := []
    status := "pending"
    config_id := "config-1" }

/-- Witness for C8: with a valid demo token, the missing-row database
and the inactive-vendor database both yield the same observable error. -/
theorem auth_active_only_and_uniform_failure_witness :
    getAuthenticatedVendor demoVerifier [] (some "Bearer valid-token")
        = .error .notActiveVendor
    ∧ getAuthenticatedVendor demoVerifier [inactiveVendorX] (some "Bearer valid-token")
        = .error .notActiveVendor := by
  have h := (auth_active_only_and_uniform_failure demoVerifier (some "Bearer valid-token")).2
    "valid-token" { sub := "user-X", email := "x@example.com" } [] [inactiveVendorX]
    inactiveVendorX rfl (by decide) rfl rfl rfl (by decide)
  exact ⟨h.1, h.2.1⟩

/-! ## Ordering lemmas for the category listing -/

/-- Name-ascending order between categories. -/
def nameLE : Category → Category → Prop := fun a b => a.name ≤ b.name

/-- Insertion preserves the multiset of categories. -/
lemma insertByName_perm (c : Category) (l : List Category) :
    List.Perm (insertByName c l) (c :: l) := by
  induction l with
  | nil => simp [insertByName]
  | cons d ds ih =>
    unfold insertByName
    by_cases h : c.name ≤ d.name
    · rw [if_pos h]
    · rw [if_neg h]
      exact (ih.cons d).trans (List.Perm.swap c d ds)

/-- Sorting preserves the multiset of categories. -/
lemma sortByName_perm (l : List Category) : List.Perm (sortByName l) l := by
  induction l with
  | nil => simp [sortByName]
  | cons c cs ih =>
    have h1 : sortByName (c :: cs) = insertByName c (sortByName cs) := rfl
    rw [h1]
    exact (insertByName_perm c (sortByName cs)).trans (ih.cons c)

/-- Membership in an insertion. -/
lemma mem_insertByName (x c : Category) (l : List Category) :
    x ∈ insertByName c l ↔ x = c ∨ x ∈ l := by
  rw [(insertByName_perm c l).mem_iff]
  simp

/-- Insertion into a name-sorted list keeps it name-sorted. -/
lemma insertByName_pairwise (c : Category) (l : List Category)
    (h : l.Pairwise nameLE) : (insertByName c l).Pairwise nameLE := by
  induction l with
  | nil => simp [insertByName, nameLE]
  | cons d ds ih =>
    rw [List.pairwise_cons] at h
    obtain ⟨hd, hds⟩ := h
    unfold insertByName
    by_cases hc : c.name ≤ d.name
    · rw [if_pos hc, List.pairwise_cons]
      constructor
      · intro x hx
        rcases List.mem_cons.mp hx with hxe | hxm
        · rw [hxe]; exact hc
        · exact le_trans hc (hd x hxm)
      · rw [List.pairwise_cons]
        exact ⟨hd, hds⟩
    · rw [if_neg hc, List.pairwise_cons]
      constructor
      · intro x hx
        rcases (mem_insertByName x c ds).mp hx with hxe | hxm
        · rw [hxe]; exact le_of_not_le hc
        · exact hd x hxm
      · exact ih hds

/-- The sort produces a name-ascending list. -/
lemma sortByName_pairwise (l : List Category) : (sortByName l).Pairwise nameLE := by
  induction l with
  | nil => simp [sortByName]
  | cons c cs ih => exact insertByName_pairwise c (sortByName cs) ih

/-! ## C9 -/

/-- An active vendor with an empty allowed-category set. -/
def noCategoriesVendor : Vendor :=
  { id := "vendor-N"
    user_id := "user-N"
    email := "n@example.com"
    company_name := "N Co"
    allowed_categories := []
    status := "active"
    config_id := "config-1" }

/-- An active vendor allowed both demo categories. -/
def carsVendor : Vendor :=
  { id := "vendor-C"
    user_id := "user-C"
    email := "c@example.com"
    company_name := "C Co"
    allowed_categories := ["cat-2", "cat-1"]
    status := "active"
    config_id := "config-1" }

/-- Two global demo categories. -/
def demoCategories : List Category :=
  [ { id := "cat-1", name := "Furniture", slug := "furniture", parent_id := none },
    { id := "cat-2", name := "Cars", slug := "cars", parent_id := none } ]

/-- C9 counterexample: for a vendor whose allowed set is empty the route
serves HTTP 200 with the `{ detail: 'No categories assigned to this
vendor.' }` message object, which is not the empty array claimed. -/
theorem categories_empty_allowed_is_message_not_array :
    getCategoriesForVendor noCategoriesVendor demoCategories
      = .okMessage "No categories assigned to this vendor."
    ∧ getCategoriesForVendor noCategoriesVendor demoCategories ≠ .okList [] := by
  exact ⟨rfl, by decide⟩

/-- C9 amended: with an empty allowed set the route returns 200 with a
no-categories message body (not an error, but not an empty array); with
a non-empty allowed set it returns exactly the categories whose id is in
`allowed_categories` (a permutation of the filtered table, with the
stated membership), ordered by name ascending. -/
theorem categories_amended (vendor : Vendor) (allCategories : List Category) :
    (vendor.allowed_categories = [] →
      getCategoriesForVendor vendor allCategories
        = .okMessage "No categories assigned to this vendor.")
    ∧ (vendor.allowed_categories ≠ [] →
        getCategoriesForVendor vendor allCategories
          = .okList (sortByName (allCategories.filter
              (fun c => vendor.allowed_categories.contains c.id)))
        ∧ List.Perm
            (sortByName (allCategories.filter
              (fun c => vendor.allowed_categories.contains c.id)))
            (allCategories.filter (fun c => vendor.allowed_categories.contains c.id))
        ∧ (∀ c, c ∈ sortByName (allCategories.filter
              (fun c => vendor.allowed_categories.contains c.id))
            ↔ c ∈ allCategories ∧ vendor.allowed_categories.contains c.id = true)
        ∧ (sortByName (allCategories.filter
            (fun c => vendor.allowed_categories.contains c.id))).Pairwise nameLE) := by
  constructor
  · intro h
    simp [getCategoriesForVendor, h]
  · intro h
    have hne : vendor.allowed_categories.isEmpty = false := by
      cases hl : vendor.allowed_categories with
      | nil => exact absurd hl h
      | cons a as => rfl
    refine ⟨?_, sortByName_perm _, ?_, sortByName_pairwise _⟩
    · simp [getCategoriesForVendor, hne]
    · intro c
      rw [(sortByName_perm _).mem_iff, List.mem_filter]

/-- Witness for the amended C9 at both a no-permission vendor and a
vendor with two allowed categories. -/
theorem categories_amended_witness :
    getCategoriesForVendor noCategoriesVendor demoCategories
        = .okMessage "No categories assigned to this vendor."
    ∧ getCategoriesForVendor carsVendor demoCategories
        = .okList (sortByName (demoCategories.filter
            (fun c => carsVendor.allowed_categories.contains c.id))) := by
  exact ⟨(categories_amended noCategoriesVendor demoCategories).1 rfl,
    ((categories_amended carsVendor demoCategories).2 (by decide)).1⟩

/-! ## C10 -/

/-- C10: the image-upload proxy's outcome does not depend on which
authenticated vendor calls it, on the vendor's own access token, or on
the posts table — no ownership check and no comparison of the supplied
capability token against any stored `edit_token` take place. Any two
successfully authenticated requests with the same multipart payload
produce the identical forward. -/
theorem upload_proxy_vendor_independent
    (verify1 verify2 : String → Option DecodedToken) (vendors1 vendors2 : List Vendor)
    (header1 header2 : Option String) (v1 v2 : Vendor) (t1 t2 : String)
    (posts1 posts2 : List Post) (form : UploadForm)
    (ha1 : getAuthenticatedVendor verify1 vendors1 header1 = .ok (v1, t1))
    (ha2 : getAuthenticatedVendor verify2 vendors2 header2 = .ok (v2, t2)) :
    uploadImagePOST verify1 vendors1 header1 posts1 form
      = uploadImagePOST verify2 vendors2 header2 posts2 form
    ∧ uploadImagePOST verify1 vendors1 header1 posts1 form
      = uploadImageAfterAuth v1 t1 posts1 form := by
  have h1 : uploadImagePOST verify1 vendors1 header1 posts1 form
      = uploadImageAfterAuth v1 t1 posts1 form := by
    unfold uploadImagePOST
    rw [ha1]
  have h2 : uploadImagePOST verify2 vendors2 header2 posts2 form
      = uploadImageAfterAuth v2 t2 posts2 form := by
    unfold uploadImagePOST
    rw [ha2]
  have h3 : uploadImageAfterAuth v1 t1 posts1 form
      = uploadImageAfterAuth v2 t2 posts2 form := rfl
  exact ⟨h1.trans (h3.trans h2.symm), h1⟩

/-- A verifier validating one token for each of vendors A and B. -/
def twoVendorVerifier : String → Option DecodedToken := fun t =>
  if t = "tok-A" then some { sub := "user-A", email := "a@example.com" }
  else if t = "tok-B" then some { sub := "user-B", email := "b@example.com" }
  else none

/-- A complete multipart payload naming vendor A's post and its token. -/
def demoForm : UploadForm :=
  { token := some "edit-token-1"
    postId := some "post-1"
    config_id := some "config-1"
    image := some "photo.jpg" }

/-- Witness for C10: vendor A and vendor B submitting the identical
payload (targeting vendor A's post) get the identical forward, whatever
the posts table contains. -/
theorem upload_proxy_vendor_independent_witness :
    uploadImagePOST twoVendorVerifier [vendorA, vendorB] (some "Bearer tok-A") [] demoForm
      = uploadImagePOST twoVendorVerifier [vendorA, vendorB] (some "Bearer tok-B")
          [postOfA] demoForm :=
  (upload_proxy_vendor_independent twoVendorVerifier twoVendorVerifier
    [vendorA, vendorB] [vendorA, vendorB] (some "Bearer tok-A") (some "Bearer tok-B")
    vendorA vendorB "tok-A" "tok-B" [] [postOfA] demoForm rfl rfl).1
